import Mathlib

/-!
Shallow embedding of the user-management service
(`src/app/services/user_service.py`, `src/app/models/user.py`,
`src/app/schemas/user.py`) and proofs about its lifecycle operations.

Conventions of the embedding:
* The database session is an explicit value `DB` (a list of rows plus the
  autoincrement counter); every service function takes the current `DB` and
  returns the resulting `DB`.
* Wall-clock time (`datetime.now()`) and the randomly generated token
  (`secrets.token_urlsafe(32)`) are passed in as parameters `now : Nat`
  (seconds) and `token : String`.
* The SQLAlchemy `onupdate=func.now()` column refreshes `updated_at`
  whenever a commit actually writes the row; SQLAlchemy's flush emits an
  UPDATE only when some attribute has a net change, so a commit whose
  written values all equal the stored ones issues no UPDATE and leaves the
  row — `updated_at` included — untouched.
* The mapped `User` model declares no verification-token columns; the
  token writes in `send_verification_email` (lines 186-187) touch
  non-mapped instance attributes that are never persisted, and the token
  lookup in `verify_email` (line 227) raises `AttributeError`.
* The message broker (`AsyncBrokerSingleton`, `src/app/services/broker.py`,
  not under `src/`) is modelled from the spec, see `BrokerBehavior`.
* Each operation also returns the ordered list of externally visible
  steps it performed: storage commits and broker publishes.
-/

/-- Row of the `users` table: exactly the eight mapped columns declared in
`src/app/models/user.py` (lines 12-23).  The model declares no
verification-token columns, although the service layer refers to them;
timestamps are modelled as `Nat` seconds. -/
structure User where
  id : Nat
  email : String
  email_verified : Bool
  name : String
  surname : String
  hashed_password : String
  created_at : Nat
  updated_at : Nat
deriving DecidableEq, Repr

/-- Creation payload (`UserCreate` in `src/app/schemas/user.py`). -/
structure UserCreate where
  email : String
  name : String
  surname : String
  hashed_password : String
deriving DecidableEq, Repr

/-- Partial-update payload (`UserUpdate` in `src/app/schemas/user.py`):
only `email`, `name`, `surname` may be supplied; `none` means the field
was not set, so `model_dump(exclude_unset=True)` omits it. -/
structure UserUpdate where
  email : Option String
  name : Option String
  surname : Option String
deriving DecidableEq, Repr

/-- The backing store: the live rows and the autoincrement counter for
the integer primary key. -/
structure DB where
  rows : List User
  nextId : Nat
deriving DecidableEq, Repr

/-- `db.get(User, user_id)`: first row with the given primary key. -/
def DB.get (db : DB) (user_id : Nat) : Option User :=
  db.rows.find? (fun u => u.id = user_id)

/-- `db.query(User).filter_by(email=...).first()`. -/
def DB.findByEmail (db : DB) (email : String) : Option User :=
  db.rows.find? (fun u => u.email = email)

/-- Commit of attribute writes on the identity-mapped object for the
given primary key: every row with that id is rewritten by `f`. -/
def DB.updateById (db : DB) (user_id : Nat) (f : User → User) : DB :=
  { db with rows := db.rows.map (fun u => if u.id = user_id then f u else u) }

/-- `db.delete(user)` followed by commit: the row disappears. -/
def DB.deleteById (db : DB) (user_id : Nat) : DB :=
  { db with rows := db.rows.filter (fun u => !(u.id = user_id)) }

/-- Cause of an exception raised below the service layer and later
wrapped into `OrientatiException(exc=e, url=...)`. -/
inductive Cause where
  /-- Modelled from the spec (§4.3): the broker connection cannot be
  established, `NotificationError{cause: ConnectionUnavailable}`. -/
  | connectionUnavailable
  /-- Modelled from the spec (§4.3): the publish call itself fails. -/
  | publishFailure
  /-- Python `AttributeError`: raised where the service layer touches an
  attribute that does not exist — the `User.verify_email_token` reference
  at `user_service.py` line 227 (the mapped model declares no such
  column), or an attribute write on a `None` lookup result. -/
  | attributeError
deriving DecidableEq, Repr

/-- Structured errors raised by the service layer
(`src/app/services/user_service.py`). -/
inductive Exc where
  /-- `UserCreateError` (status 400) with its `error_type` string. -/
  | userCreateError (errorType : String)
  /-- An explicitly constructed `OrientatiException`. -/
  | orientati (statusCode : Nat) (message : String) (url : String)
  /-- `OrientatiException(exc=e, url=...)` wrapping a lower-level error. -/
  | wrapped (cause : Cause) (url : String)
deriving DecidableEq, Repr

/-- Modelled from the spec: the broker (`AsyncBrokerSingleton`,
`src/app/services/broker.py`) is not under `src/`.  Per §4.3 of the spec,
`connect` either establishes a live connection or fails with
`NotificationError{cause: ConnectionUnavailable}`, and a subsequent
`publish_message` either succeeds or fails with a `NotificationError`.
One `BrokerBehavior` value fixes the outcome of one connect-and-publish
interaction. -/
inductive BrokerBehavior where
  | connectFails
  | publishFails
  | ok
deriving DecidableEq, Repr

/-- Body of a published broker message. -/
inductive Payload where
  /-- Full field snapshot sent for CREATE/UPDATE events
  (`update_services`, non-DELETE branch). -/
  | full (id : Nat) (email : String) (email_verified : Bool) (name : String)
      (surname : String) (hashed_password : String) (created_at : Nat) (updated_at : Nat)
  /-- `{"id": user.id}`, sent for DELETE events. -/
  | idOnly (id : Nat)
  /-- The verification e-mail request published on the `email` topic,
  carrying the recipient (`to`) and the token embedded in the link. -/
  | emailMsg (recipient : String) (token : String)
deriving DecidableEq, Repr

/-- An externally visible step of one service operation: a storage
commit (with the state it makes durable) or a broker publish. -/
inductive Step where
  | commit (db : DB)
  | publish (topic : String) (eventType : String) (payload : Payload)
deriving DecidableEq, Repr

instance {ε α : Type} [DecidableEq ε] [DecidableEq α] : DecidableEq (Except ε α) := fun a b =>
  match a, b with
  | .ok x, .ok y =>
      if h : x = y then isTrue (by rw [h])
      else isFalse (by intro hc; cases hc; exact h rfl)
  | .error x, .error y =>
      if h : x = y then isTrue (by rw [h])
      else isFalse (by intro hc; cases hc; exact h rfl)
  | .ok _, .error _ => isFalse (by intro hc; cases hc)
  | .error _, .ok _ => isFalse (by intro hc; cases hc)

/-- Outcome of a service operation: the returned value or raised error,
the resulting store, and the ordered step trace. -/
structure OpResult (α : Type) where
  res : Except Exc α
  db : DB
  steps : List Step
deriving DecidableEq, Repr

def RABBIT_DELETE_TYPE : String := "DELETE"

def RABBIT_UPDATE_TYPE : String := "UPDATE"

def RABBIT_CREATE_TYPE : String := "CREATE"

/-- `update_services(user, operation)` (lines 144-164): connect to the
broker and publish the change event on topic `"users"`; the payload is
the full snapshot except for DELETE, which carries only the id.  Any
broker failure is logged and re-raised to the caller. -/
def update_services (user : User) (operation : String) (b : BrokerBehavior) :
    Except Cause Unit × List Step :=
  match b with
  | .connectFails => (.error .connectionUnavailable, [])
  | .publishFails => (.error .publishFailure, [])
  | .ok =>
      let message : Payload :=
        if operation ≠ RABBIT_DELETE_TYPE then
          .full user.id user.email user.email_verified user.name user.surname
            user.hashed_password user.created_at user.updated_at
        else .idOnly user.id
      (.ok (), [.publish "users" operation message])

/-- Result of `send_verification_email`, which raises raw lower-level
errors (its callers wrap them). -/
structure SendResult where
  res : Except Cause Unit
  db : DB
  steps : List Step
deriving DecidableEq, Repr

/-- `send_verification_email(user)` (lines 167-196): connect to the
broker, generate a token and build the e-mail request (the token survives
only inside the outbound link), then look the user up in a fresh session
and set `email_verified = False`.  The token-pair writes at lines 186-187
assign attributes the mapped model does not declare, so `db.commit()`
persists only the `email_verified` change — and when the stored value is
already false there is no net change, no UPDATE is emitted and the row
(`updated_at` included) is untouched.  After the commit the e-mail event
is published on topic `"email"`. -/
def send_verification_email (user : User) (db : DB) (token : String) (now : Nat)
    (b : BrokerBehavior) : SendResult :=
  match b with
  | .connectFails => ⟨.error .connectionUnavailable, db, []⟩
  | _ =>
      match db.get user.id with
      | none => ⟨.error .attributeError, db, []⟩
      | some _ =>
          let db2 := db.updateById user.id (fun u =>
            if u.email_verified = false then u
            else { u with email_verified := false, updated_at := now })
          match b with
          | .publishFails => ⟨.error .publishFailure, db2, [.commit db2]⟩
          | _ =>
              ⟨.ok (), db2,
                [.commit db2, .publish "email" "email_notification" (.emailMsg user.email token)]⟩

/-- `get_user(db, user_id)` (lines 51-52). -/
def get_user (db : DB) (user_id : Nat) : Option User :=
  db.get user_id

/-- `User(**payload.model_dump())`: the freshly inserted row, with the
storage-assigned id, `email_verified` defaulting to false, and both
timestamps server-defaulted to now. -/
def newUser (db : DB) (payload : UserCreate) (now : Nat) : User :=
  { id := db.nextId
    email := payload.email
    email_verified := false
    name := payload.name
    surname := payload.surname
    hashed_password := payload.hashed_password
    created_at := now
    updated_at := now }

/-- `create_user(db, payload)` (lines 55-83): reject an email already in
use, then reject an email without `@`; otherwise insert the row (fresh
id, `email_verified` defaulting to false, no token), commit, publish the
CREATE event (`b1`), and send the verification e-mail (`b2`).  Broker
failures are wrapped into `OrientatiException(url="users/create")`. -/
def create_user (db : DB) (payload : UserCreate) (now : Nat) (token : String)
    (b1 b2 : BrokerBehavior) : OpResult User :=
  match db.findByEmail payload.email with
  | some _ => ⟨.error (.userCreateError "email_taken"), db, []⟩
  | none =>
      if payload.email = "" ∨ ¬ payload.email.toList.contains '@' then
        ⟨.error (.userCreateError "invalid_email"), db, []⟩
      else
        let user : User := newUser db payload now
        let db1 : DB := { rows := db.rows ++ [user], nextId := db.nextId + 1 }
        match update_services user RABBIT_CREATE_TYPE b1 with
        | (.error c, evs1) => ⟨.error (.wrapped c "users/create"), db1, .commit db1 :: evs1⟩
        | (.ok _, evs1) =>
            let sent := send_verification_email user db1 token now b2
            match sent.res with
            | .error c =>
                ⟨.error (.wrapped c "users/create"), sent.db, (.commit db1 :: evs1) ++ sent.steps⟩
            | .ok _ => ⟨.ok user, sent.db, (.commit db1 :: evs1) ++ sent.steps⟩

/-- The `setattr` loop of `update_user`: each supplied field overwrites
the corresponding attribute, unset fields are left alone. -/
def applyUpdate (payload : UserUpdate) (u : User) : User :=
  { u with
      email := payload.email.getD u.email
      name := payload.name.getD u.name
      surname := payload.surname.getD u.surname }

/-- `update_user(db, user_id, payload)` (lines 86-108): 404 if the id
does not exist; otherwise write the supplied fields and commit.  The
flush emits an UPDATE — and `onupdate` refreshes `updated_at` — only when
some supplied value differs from the stored one; a payload supplying
nothing, or supplying only values equal to those stored, has no net
change, so the commit is a no-op and the row keeps its `updated_at`.
Then publish the UPDATE event. -/
def update_user (db : DB) (user_id : Nat) (payload : UserUpdate) (now : Nat)
    (b : BrokerBehavior) : OpResult User :=
  match db.get user_id with
  | none => ⟨.error (.orientati 404 "Not Found" ("users/" ++ toString user_id)), db, []⟩
  | some u =>
      let write : User → User := fun w =>
        if applyUpdate payload w = w then w
        else { applyUpdate payload w with updated_at := now }
      let u2 := write u
      let db2 := db.updateById user_id write
      match update_services u2 RABBIT_UPDATE_TYPE b with
      | (.error c, evs) =>
          ⟨.error (.wrapped c ("users/" ++ toString user_id)), db2, .commit db2 :: evs⟩
      | (.ok _, evs) => ⟨.ok u2, db2, .commit db2 :: evs⟩

/-- `change_user_password(db, user_id, old_password, new_password)`
(lines 111-125): return `false` (no error, no write) when the user is
missing or the stored credential differs from `old_password`; otherwise
store the new credential, commit, publish the UPDATE event and return
`true`.  Broker failures are wrapped. -/
def change_user_password (db : DB) (user_id : Nat) (old_password new_password : String)
    (now : Nat) (b : BrokerBehavior) : OpResult Bool :=
  match db.get user_id with
  | none => ⟨.ok false, db, []⟩
  | some u =>
      if u.hashed_password ≠ old_password then ⟨.ok false, db, []⟩
      else
        let write : User → User := fun w =>
          { w with hashed_password := new_password, updated_at := now }
        let u2 := write u
        let db2 := db.updateById user_id write
        match update_services u2 RABBIT_UPDATE_TYPE b with
        | (.error c, evs) =>
            ⟨.error (.wrapped c ("users/" ++ toString user_id ++ "/change_password")),
              db2, .commit db2 :: evs⟩
        | (.ok _, evs) => ⟨.ok true, db2, .commit db2 :: evs⟩

/-- `delete_user(db, user_id)` (lines 128-141): return `false` when the
id does not exist; otherwise hard-delete the row, commit, publish the
DELETE event (id-only payload) and return `true`. -/
def delete_user (db : DB) (user_id : Nat) (b : BrokerBehavior) : OpResult Bool :=
  match db.get user_id with
  | none => ⟨.ok false, db, []⟩
  | some u =>
      let db2 := db.deleteById user_id
      match update_services u RABBIT_DELETE_TYPE b with
      | (.error c, evs) =>
          ⟨.error (.wrapped c ("users/" ++ toString user_id ++ "/delete")),
            db2, .commit db2 :: evs⟩
      | (.ok _, evs) => ⟨.ok true, db2, .commit db2 :: evs⟩

/-- `request_email_verification(user_id, db)` (lines 199-216): 404 if
the user does not exist, otherwise delegate to
`send_verification_email`; lower-level errors are wrapped with the
operation's url. -/
def request_email_verification (db : DB) (user_id : Nat) (token : String) (now : Nat)
    (b : BrokerBehavior) : OpResult Unit :=
  match get_user db user_id with
  | none =>
      ⟨.error (.orientati 404 "Not Found"
          ("users/" ++ toString user_id ++ "/request_email_verification")), db, []⟩
  | some u =>
      let sent := send_verification_email u db token now b
      match sent.res with
      | .error c =>
          ⟨.error (.wrapped c ("users/" ++ toString user_id ++ "/request_email_verification")),
            sent.db, sent.steps⟩
      | .ok _ => ⟨.ok (), sent.db, sent.steps⟩

/-- `verify_email(token)` (lines 219-255): the query at line 227 filters on
`User.verify_email_token`, a class attribute the mapped model
(`src/app/models/user.py`) does not declare, so building the filter raises
`AttributeError` on every call, before any lookup; the blanket
`except Exception` wraps it into `OrientatiException(url="users/verify_email")`.
The 404 / expired-400 / redemption branches at lines 228-248 are
unreachable; `token`, `now` (`datetime.now()`) and the broker are never
consumed, and the store is untouched with no commit or publish. -/
def verify_email (db : DB) (token : String) (now : Nat) (b : BrokerBehavior) :
    OpResult Bool :=
  ⟨.error (.wrapped .attributeError "users/verify_email"), db, []⟩

/-! ### Helper lemmas about the store -/

theorem DB.get_id {db : DB} {user_id : Nat} {u : User} (h : db.get user_id = some u) :
    u.id = user_id := by
  unfold DB.get at h
  have := List.find?_some h
  simpa using this

theorem find_id_map_update (l : List User) (user_id : Nat) (f : User → User)
    (hf : ∀ w, (f w).id = w.id) (u : User)
    (h : l.find? (fun w => w.id = user_id) = some u) :
    (l.map (fun w => if w.id = user_id then f w else w)).find? (fun w => w.id = user_id)
      = some (f u) := by
  induction l with
  | nil => simp at h
  | cons a l ih =>
      by_cases ha : a.id = user_id
      · rw [List.find?_cons_of_pos _ (by simpa using ha)] at h
        injection h with h2
        subst h2
        simp only [List.map_cons, if_pos ha]
        rw [List.find?_cons_of_pos _ (by simp [hf a, ha])]
      · rw [List.find?_cons_of_neg _ (by simpa using ha)] at h
        simp only [List.map_cons, if_neg ha]
        rw [List.find?_cons_of_neg _ (by simpa using ha)]
        exact ih h

theorem DB.get_updateById_self {db : DB} {user_id : Nat} {f : User → User}
    (hf : ∀ w, (f w).id = w.id) {u : User} (h : db.get user_id = some u) :
    (db.updateById user_id f).get user_id = some (f u) :=
  find_id_map_update db.rows user_id f hf u h

theorem DB.map_updateById {β : Type} (proj : User → β) (db : DB) (user_id : Nat)
    (f : User → User) (hf : ∀ w, proj (f w) = proj w) :
    (db.updateById user_id f).rows.map proj = db.rows.map proj := by
  unfold DB.updateById
  simp only [List.map_map]
  apply List.map_congr_left
  intro w _
  by_cases hw : w.id = user_id <;> simp [hw, hf w]

theorem update_write_id (payload : UserUpdate) (now : Nat) (w : User) :
    (if applyUpdate payload w = w then w
      else { applyUpdate payload w with updated_at := now }).id = w.id := by
  by_cases hw : applyUpdate payload w = w
  · rw [if_pos hw]
  · rw [if_neg hw]
    rfl

theorem DB.get_deleteById (db : DB) (user_id : Nat) :
    (db.deleteById user_id).get user_id = none := by
  unfold DB.deleteById DB.get
  rw [List.find?_eq_none]
  intro v hv
  have := (List.mem_filter.mp hv).2
  simpa using this

theorem DB.get_append_fresh {db : DB} {user : User}
    (h : ∀ v ∈ db.rows, v.id ≠ user.id) :
    (List.find? (fun u => u.id = user.id) (db.rows ++ [user])) = some user := by
  rw [List.find?_append]
  have h1 : db.rows.find? (fun u => u.id = user.id) = none := by
    rw [List.find?_eq_none]
    intro v hv
    simpa using h v hv
  simp [h1]

/-! ### Claim theorems -/

/-- C3: `create_user` fails with `UserCreateError{email_taken}` whenever the
email is already in use — this check runs first, so it wins even when the
email is also malformed — and fails with `UserCreateError{invalid_email}`
whenever the email is not in use and lacks an `@`; in both failure cases the
store is unchanged and no commit or publish step happens. -/
theorem create_user_error_cases (db : DB) (payload : UserCreate) (now : Nat) (token : String)
    (b1 b2 : BrokerBehavior) :
    ((db.findByEmail payload.email).isSome →
      create_user db payload now token b1 b2 =
        ⟨.error (.userCreateError "email_taken"), db, []⟩) ∧
    (db.findByEmail payload.email = none → ¬ payload.email.toList.contains '@' →
      create_user db payload now token b1 b2 =
        ⟨.error (.userCreateError "invalid_email"), db, []⟩) := by
  constructor
  · intro h
    rcases Option.isSome_iff_exists.mp h with ⟨u, hu⟩
    simp [create_user, hu]
  · intro h hc
    simp only [create_user, h]
    rw [if_pos (Or.inr hc)]

theorem create_user_error_cases_witness :
    (create_user ⟨[⟨1, "a@x.com", false, "A", "A", "p", 0, 0⟩], 2⟩
        ⟨"a@x.com", "N", "N", "q"⟩ 3 "t" .ok .ok =
      ⟨.error (.userCreateError "email_taken"),
        ⟨[⟨1, "a@x.com", false, "A", "A", "p", 0, 0⟩], 2⟩, []⟩) ∧
    (create_user ⟨[⟨1, "a@x.com", false, "A", "A", "p", 0, 0⟩], 2⟩
        ⟨"no-at-sign", "N", "N", "q"⟩ 3 "t" .ok .ok =
      ⟨.error (.userCreateError "invalid_email"),
        ⟨[⟨1, "a@x.com", false, "A", "A", "p", 0, 0⟩], 2⟩, []⟩) :=
  ⟨(create_user_error_cases _ ⟨"a@x.com", "N", "N", "q"⟩ 3 "t" .ok .ok).1 (by decide),
   (create_user_error_cases _ ⟨"no-at-sign", "N", "N", "q"⟩ 3 "t" .ok .ok).2
     (by decide) (by decide)⟩

/-- C4: `change_user_password` returns `true` and stores the new credential
exactly when the user exists and the supplied old password equals the stored
credential (return value shown for a successful notification; the credential
write itself survives any broker behavior); when the user is missing or the
credential mismatches it returns `false` — not an error — with the store,
trace and all stored hashes untouched. -/
theorem change_user_password_spec (db : DB) (user_id : Nat)
    (old_password new_password : String) (now : Nat) (b : BrokerBehavior) :
    ((∃ u, db.get user_id = some u ∧ u.hashed_password = old_password) →
      (change_user_password db user_id old_password new_password now .ok).res = .ok true ∧
      ∃ v, (change_user_password db user_id old_password new_password now b).db.get user_id
          = some v ∧ v.hashed_password = new_password) ∧
    ((∀ u, db.get user_id = some u → u.hashed_password ≠ old_password) →
      change_user_password db user_id old_password new_password now b = ⟨.ok false, db, []⟩) ∧
    ((change_user_password db user_id old_password new_password now b).res = .ok true →
      ∃ u, db.get user_id = some u ∧ u.hashed_password = old_password) := by
  refine ⟨?_, ?_, ?_⟩
  · rintro ⟨u, hu, hp⟩
    have hwrite : ∀ w : User,
        ((fun w : User => { w with hashed_password := new_password, updated_at := now }) w).id
          = w.id := fun _ => rfl
    have hget := DB.get_updateById_self hwrite hu
    constructor
    · simp [change_user_password, hu, hp, update_services]
    · have hdb : (change_user_password db user_id old_password new_password now b).db
          = db.updateById user_id
              (fun w : User => { w with hashed_password := new_password, updated_at := now }) := by
        cases b <;> simp [change_user_password, hu, hp, update_services]
      rw [hdb]
      exact ⟨_, hget, rfl⟩
  · intro h
    cases hu : db.get user_id with
    | none => simp [change_user_password, hu]
    | some u => simp [change_user_password, hu, h u hu]
  · intro h
    cases hu : db.get user_id with
    | none => simp [change_user_password, hu] at h
    | some u =>
        by_cases hp : u.hashed_password = old_password
        · exact ⟨u, rfl, hp⟩
        · simp [change_user_password, hu, hp] at h

theorem change_user_password_spec_witness :
    ((change_user_password ⟨[⟨1, "a@x.com", false, "A", "A", "old", 0, 0⟩], 2⟩
        1 "old" "new" 5 .ok).res = .ok true ∧
      ∃ v, (change_user_password ⟨[⟨1, "a@x.com", false, "A", "A", "old", 0, 0⟩], 2⟩
          1 "old" "new" 5 .ok).db.get 1 = some v ∧ v.hashed_password = "new") ∧
    (change_user_password ⟨[⟨1, "a@x.com", false, "A", "A", "old", 0, 0⟩], 2⟩
        1 "wrong" "new" 5 .ok =
      ⟨.ok false, ⟨[⟨1, "a@x.com", false, "A", "A", "old", 0, 0⟩], 2⟩, []⟩) :=
  ⟨(change_user_password_spec ⟨[⟨1, "a@x.com", false, "A", "A", "old", 0, 0⟩], 2⟩
      1 "old" "new" 5 .ok).1
      ⟨⟨1, "a@x.com", false, "A", "A", "old", 0, 0⟩, by decide, rfl⟩,
   (change_user_password_spec ⟨[⟨1, "a@x.com", false, "A", "A", "old", 0, 0⟩], 2⟩
      1 "wrong" "new" 5 .ok).2.1
      (by intro u hu; simp [DB.get, List.find?] at hu; subst hu; decide)⟩

/-- C5 (code bug): the Expired branch of `verify_email` (source lines
235-241) is unreachable in the staged program.  The query at line 227
references `User.verify_email_token` on a model that declares no such
column, so every call — whatever the token, the current time or the broker
behavior — fails with the wrapped `AttributeError` before any expiry check,
never with the 400 Expired error, and the store is untouched with no commit
or publish. -/
theorem verify_email_expired_branch_unreachable (db : DB) (token : String) (now : Nat)
    (b : BrokerBehavior) :
    (verify_email db token now b).res
        = .error (.wrapped .attributeError "users/verify_email") ∧
    (verify_email db token now b).res
        ≠ .error (.orientati 400 "Bad Request" "users/verify_email") ∧
    (verify_email db token now b).db = db ∧
    (verify_email db token now b).steps = [] := by
  refine ⟨rfl, ?_, rfl, rfl⟩
  simp [verify_email]

/-- C10: for every id and every update payload, `update_user` leaves `id`,
`hashed_password`, `email_verified` and `created_at` of every row unchanged
(the `UserUpdate` schema only admits `email`, `name`, `surname`): the
per-row projection onto those four fields is exactly preserved. -/
theorem update_user_preserves_protected_fields (db : DB) (user_id : Nat)
    (payload : UserUpdate) (now : Nat) (b : BrokerBehavior) :
    (update_user db user_id payload now b).db.rows.map
        (fun u => (u.id, u.hashed_password, u.email_verified, u.created_at))
      = db.rows.map (fun u => (u.id, u.hashed_password, u.email_verified, u.created_at)) := by
  cases hu : db.get user_id with
  | none => simp [update_user, hu]
  | some u =>
      have hdb : (update_user db user_id payload now b).db
          = db.updateById user_id (fun w : User =>
              if applyUpdate payload w = w then w
              else { applyUpdate payload w with updated_at := now }) := by
        cases b <;> simp [update_user, hu, update_services]
      rw [hdb]
      apply DB.map_updateById
      intro w
      by_cases he : applyUpdate payload w = w
      · rw [if_pos he]
      · rw [if_neg he]
        simp [applyUpdate]

/-- C9 counterexample: requesting verification for the already-verified
user 1 at time 10 with token "tok" succeeds, yet the resulting persisted
store is exactly the input store with `email_verified` flipped to false and
`updated_at` refreshed — and nothing else: the mapped model declares no
token columns, so the token-pair writes at source lines 186-187 hit
non-mapped instance attributes that `db.commit()` never persists, and no
trace of "tok" is durably stored, contrary to the claim's "when storing the
new token". -/
theorem request_verification_no_token_stored_cex :
    (request_email_verification ⟨[⟨1, "a@x.com", true, "A", "A", "p", 0, 0⟩], 2⟩
        1 "tok" 10 .ok).res = .ok () ∧
    (request_email_verification ⟨[⟨1, "a@x.com", true, "A", "A", "p", 0, 0⟩], 2⟩
        1 "tok" 10 .ok).db = ⟨[⟨1, "a@x.com", false, "A", "A", "p", 0, 10⟩], 2⟩ := by
  decide

/-- C9 (amended): `request_email_verification` on an existing user succeeds
and unconditionally leaves the persisted row with `email_verified = false`
— silently un-verifying an already-verified user — but durably stores no
token: the resulting store is exactly the input store with that one
`email_verified` write applied (a no-op when the user was already
unverified), because the token-pair writes touch attributes the mapped
model does not declare and are never persisted. -/
theorem request_verification_unverifies (db : DB) (user_id : Nat) (token : String)
    (now : Nat) (u : User) (hu : db.get user_id = some u) :
    (request_email_verification db user_id token now .ok).res = .ok () ∧
    (request_email_verification db user_id token now .ok).db
      = db.updateById user_id (fun w : User =>
          if w.email_verified = false then w
          else { w with email_verified := false, updated_at := now }) ∧
    ∃ v, (request_email_verification db user_id token now .ok).db.get user_id = some v ∧
      v.email_verified = false := by
  have hid : u.id = user_id := DB.get_id hu
  subst hid
  have hget := DB.get_updateById_self (f := fun w : User =>
      if w.email_verified = false then w
      else { w with email_verified := false, updated_at := now })
    (fun w => by by_cases h : w.email_verified = false <;> simp [h]) hu
  have hdb : (request_email_verification db u.id token now .ok).db
      = db.updateById u.id (fun w : User =>
          if w.email_verified = false then w
          else { w with email_verified := false, updated_at := now }) := by
    simp [request_email_verification, get_user, hu, send_verification_email]
  refine ⟨?_, hdb, ?_⟩
  · simp [request_email_verification, get_user, hu, send_verification_email]
  · rw [hdb]
    refine ⟨_, hget, ?_⟩
    by_cases h : u.email_verified = false <;> simp [h]

theorem request_verification_unverifies_witness :
    (request_email_verification ⟨[⟨1, "a@x.com", true, "A", "A", "p", 0, 0⟩], 2⟩
        1 "tok" 50 .ok).res = .ok () ∧
    (request_email_verification ⟨[⟨1, "a@x.com", true, "A", "A", "p", 0, 0⟩], 2⟩
        1 "tok" 50 .ok).db
      = (⟨[⟨1, "a@x.com", true, "A", "A", "p", 0, 0⟩], 2⟩ : DB).updateById 1 (fun w : User =>
          if w.email_verified = false then w
          else { w with email_verified := false, updated_at := 50 }) ∧
    ∃ v, (request_email_verification ⟨[⟨1, "a@x.com", true, "A", "A", "p", 0, 0⟩], 2⟩
        1 "tok" 50 .ok).db.get 1 = some v ∧ v.email_verified = false :=
  request_verification_unverifies ⟨[⟨1, "a@x.com", true, "A", "A", "p", 0, 0⟩], 2⟩
    1 "tok" 50 ⟨1, "a@x.com", true, "A", "A", "p", 0, 0⟩ (by decide)

/-- C6 counterexample: `update_user` on an existing id with the nonempty
partial payload supplying `name := "A"` — equal to the stored name —
succeeds and returns the user, but `updated_at` is NOT refreshed: no
supplied value differs from the stored one, so the flush emits no UPDATE
and `onupdate` never fires; the row still carries `updated_at = 0` although
the operation ran at time 99, contradicting the claim that a partial
payload refreshes `updated_at`. -/
theorem update_user_no_net_change_cex :
    (update_user ⟨[⟨1, "a@x.com", false, "A", "A", "p", 0, 0⟩], 2⟩
        1 ⟨none, some "A", none⟩ 99 .ok).res
      = .ok ⟨1, "a@x.com", false, "A", "A", "p", 0, 0⟩ ∧
    (update_user ⟨[⟨1, "a@x.com", false, "A", "A", "p", 0, 0⟩], 2⟩
        1 ⟨none, some "A", none⟩ 99 .ok).db.get 1
      = some ⟨1, "a@x.com", false, "A", "A", "p", 0, 0⟩ := by
  decide

/-- C6 (amended): `update_user` on a nonexistent id fails with the
structured 404 `NotFound` error and changes nothing; on an existing id with
a payload in which some supplied value differs from the stored one it
overwrites exactly the supplied fields (`applyUpdate`), keeps every other
stored field of that user, and refreshes `updated_at` to the operation
time; a payload with no net change — supplying nothing, or only values
equal to those stored — leaves that user's row, `updated_at` included,
unchanged, which is the departure from the claim as written. -/
theorem update_user_partial_update_spec (db : DB) (user_id : Nat) (payload : UserUpdate)
    (now : Nat) (b : BrokerBehavior) :
    (db.get user_id = none →
      update_user db user_id payload now b =
        ⟨.error (.orientati 404 "Not Found" ("users/" ++ toString user_id)), db, []⟩) ∧
    (∀ u, db.get user_id = some u → applyUpdate payload u ≠ u →
      (update_user db user_id payload now b).db.get user_id
        = some { applyUpdate payload u with updated_at := now }) ∧
    (∀ u, db.get user_id = some u → applyUpdate payload u = u →
      (update_user db user_id payload now b).db.get user_id = some u) := by
  refine ⟨?_, ?_, ?_⟩
  · intro h
    simp [update_user, h]
  · intro u hu hne
    have hdb : (update_user db user_id payload now b).db
        = db.updateById user_id (fun w : User =>
            if applyUpdate payload w = w then w
            else { applyUpdate payload w with updated_at := now }) := by
      cases b <;> simp [update_user, hu, update_services]
    rw [hdb]
    have hget := DB.get_updateById_self (f := fun w : User =>
        if applyUpdate payload w = w then w
        else { applyUpdate payload w with updated_at := now })
      (fun w => update_write_id payload now w) hu
    rw [hget]
    simp [hne]
  · intro u hu he
    have hdb : (update_user db user_id payload now b).db
        = db.updateById user_id (fun w : User =>
            if applyUpdate payload w = w then w
            else { applyUpdate payload w with updated_at := now }) := by
      cases b <;> simp [update_user, hu, update_services]
    rw [hdb]
    have hget := DB.get_updateById_self (f := fun w : User =>
        if applyUpdate payload w = w then w
        else { applyUpdate payload w with updated_at := now })
      (fun w => update_write_id payload now w) hu
    rw [hget]
    simp [he]

theorem update_user_partial_update_spec_witness :
    (update_user ⟨[⟨1, "a@x.com", false, "A", "A", "p", 0, 0⟩], 2⟩
        7 ⟨none, some "Z", none⟩ 99 .ok =
      ⟨.error (.orientati 404 "Not Found" "users/7"),
        ⟨[⟨1, "a@x.com", false, "A", "A", "p", 0, 0⟩], 2⟩, []⟩) ∧
    ((update_user ⟨[⟨1, "a@x.com", false, "A", "A", "p", 0, 0⟩], 2⟩
        1 ⟨none, some "Z", none⟩ 99 .ok).db.get 1
      = some ⟨1, "a@x.com", false, "Z", "A", "p", 0, 99⟩) :=
  ⟨(update_user_partial_update_spec ⟨[⟨1, "a@x.com", false, "A", "A", "p", 0, 0⟩], 2⟩
      7 ⟨none, some "Z", none⟩ 99 .ok).1 (by decide),
   (update_user_partial_update_spec ⟨[⟨1, "a@x.com", false, "A", "A", "p", 0, 0⟩], 2⟩
      1 ⟨none, some "Z", none⟩ 99 .ok).2.1
      ⟨1, "a@x.com", false, "A", "A", "p", 0, 0⟩ (by decide) (by decide)⟩

/-- Executable check that no two rows share an email. -/
def distinctEmails : List User → Bool
  | [] => true
  | u :: rest => rest.all (fun v => !(v.email == u.email)) && distinctEmails rest

theorem distinctEmails_iff_nodup (l : List User) :
    distinctEmails l = true ↔ (l.map User.email).Nodup := by
  induction l with
  | nil => simp [distinctEmails]
  | cons u rest ih =>
      simp only [distinctEmails, Bool.and_eq_true, List.all_eq_true, List.map_cons,
        List.nodup_cons, List.mem_map, ih, Bool.not_eq_true', beq_eq_false_iff_ne, ne_eq]
      constructor
      · rintro ⟨h1, h2⟩
        exact ⟨fun ⟨v, hv, he⟩ => h1 v hv he, h2⟩
      · rintro ⟨h1, h2⟩
        exact ⟨fun v hv he => h1 ⟨v, hv, he⟩, h2⟩

theorem create_user_emails (db : DB) (payload : UserCreate) (now : Nat) (token : String)
    (b1 b2 : BrokerBehavior) :
    (create_user db payload now token b1 b2).db.rows.map User.email
        = db.rows.map User.email ∨
    (db.findByEmail payload.email = none ∧
      (create_user db payload now token b1 b2).db.rows.map User.email
        = db.rows.map User.email ++ [payload.email]) := by
  cases h1 : db.findByEmail payload.email with
  | some u => left; simp [create_user, h1]
  | none =>
      by_cases hcond : payload.email = "" ∨ ¬ payload.email.toList.contains '@'
      · left
        simp only [create_user, h1]
        rw [if_pos hcond]
      · right
        refine ⟨rfl, ?_⟩
        cases b1 with
        | connectFails =>
            simp only [create_user, h1]; rw [if_neg hcond]; simp [update_services, newUser]
        | publishFails =>
            simp only [create_user, h1]; rw [if_neg hcond]; simp [update_services, newUser]
        | ok =>
            cases b2 with
            | connectFails =>
                simp only [create_user, h1]
                rw [if_neg hcond]
                simp [update_services, send_verification_email, newUser]
            | publishFails =>
                simp only [create_user, h1]
                rw [if_neg hcond]
                simp only [update_services, send_verification_email]
                cases h2 : DB.get ⟨db.rows ++ [newUser db payload now], db.nextId + 1⟩
                    (newUser db payload now).id with
                | none => simp [h2, newUser]
                | some w =>
                    simp only [h2]
                    rw [DB.map_updateById User.email]
                    · simp [newUser]
                    · intro u
                      by_cases h : u.email_verified = false <;> simp [h]
            | ok =>
                simp only [create_user, h1]
                rw [if_neg hcond]
                simp only [update_services, send_verification_email]
                cases h2 : DB.get ⟨db.rows ++ [newUser db payload now], db.nextId + 1⟩
                    (newUser db payload now).id with
                | none => simp [h2, newUser]
                | some w =>
                    simp only [h2]
                    rw [DB.map_updateById User.email]
                    · simp [newUser]
                    · intro u
                      by_cases h : u.email_verified = false <;> simp [h]

theorem update_user_emails_of_no_email (db : DB) (user_id : Nat) (payload : UserUpdate)
    (now : Nat) (b : BrokerBehavior) (hmail : payload.email = none) :
    (update_user db user_id payload now b).db.rows.map User.email
      = db.rows.map User.email := by
  cases hu : db.get user_id with
  | none => simp [update_user, hu]
  | some u =>
      have hdb : (update_user db user_id payload now b).db
          = db.updateById user_id (fun w : User =>
              if applyUpdate payload w = w then w
              else { applyUpdate payload w with updated_at := now }) := by
        cases b <;> simp [update_user, hu, update_services]
      rw [hdb]
      apply DB.map_updateById
      intro w
      by_cases he : applyUpdate payload w = w
      · rw [if_pos he]
      · rw [if_neg he]
        simp [applyUpdate, hmail]

/-- C1 counterexample: starting from the empty store, two `create_user`
calls with distinct emails followed by one `update_user` that changes the
second user's email to the first user's email yield a reachable state with
two live rows sharing the email `"a@x.com"` — `update_user` performs no
uniqueness re-check, contradicting the claim that no create/update sequence
produces two users with the same email. -/
theorem email_uniqueness_cex :
    distinctEmails ((create_user (create_user ⟨[], 1⟩ ⟨"a@x.com", "A", "A", "p"⟩ 0 "t1"
        .ok .ok).db ⟨"b@x.com", "B", "B", "p"⟩ 1 "t2" .ok .ok).db).rows = true ∧
    (update_user ((create_user (create_user ⟨[], 1⟩ ⟨"a@x.com", "A", "A", "p"⟩ 0 "t1"
        .ok .ok).db ⟨"b@x.com", "B", "B", "p"⟩ 1 "t2" .ok .ok).db)
        2 ⟨some "a@x.com", none, none⟩ 2 .ok).res.isOk = true ∧
    distinctEmails ((update_user ((create_user (create_user ⟨[], 1⟩ ⟨"a@x.com", "A", "A", "p"⟩
        0 "t1" .ok .ok).db ⟨"b@x.com", "B", "B", "p"⟩ 1 "t2" .ok .ok).db)
        2 ⟨some "a@x.com", none, none⟩ 2 .ok).db.rows) = false ∧
    ((update_user ((create_user (create_user ⟨[], 1⟩ ⟨"a@x.com", "A", "A", "p"⟩ 0 "t1"
        .ok .ok).db ⟨"b@x.com", "B", "B", "p"⟩ 1 "t2" .ok .ok).db)
        2 ⟨some "a@x.com", none, none⟩ 2 .ok).db.rows.map
          (fun u => (u.id, u.email)) = [(1, "a@x.com"), (2, "a@x.com")]) := by
  decide

/-- C1 (amended): `create_user` does enforce email uniqueness — it rejects
an email already in use — so creates preserve the one-live-row-per-email
invariant, and `update_user` preserves it when the payload does not supply
an email; but the update path does not re-check uniqueness, so an update
that supplies an email already in use breaks the invariant (see the
counterexample). -/
theorem email_uniqueness_preserved (db : DB) :
    (∀ payload now token b1 b2, distinctEmails db.rows = true →
      distinctEmails (create_user db payload now token b1 b2).db.rows = true) ∧
    (∀ user_id payload now b, distinctEmails db.rows = true → payload.email = none →
      distinctEmails (update_user db user_id payload now b).db.rows = true) := by
  constructor
  · intro payload now token b1 b2 hd
    rw [distinctEmails_iff_nodup] at hd ⊢
    rcases create_user_emails db payload now token b1 b2 with h | ⟨hfresh, h⟩
    · rw [h]; exact hd
    · rw [h]
      rw [List.nodup_append]
      refine ⟨hd, List.nodup_singleton _, ?_⟩
      intro e he hmem
      rcases List.mem_map.mp he with ⟨v, hv, hve⟩
      have : e = payload.email := by simpa using hmem
      subst this
      unfold DB.findByEmail at hfresh
      rw [List.find?_eq_none] at hfresh
      exact hfresh v hv (by simpa using hve)
  · intro user_id payload now b hd hmail
    rw [distinctEmails_iff_nodup] at hd ⊢
    rw [update_user_emails_of_no_email db user_id payload now b hmail]
    exact hd

theorem email_uniqueness_preserved_witness :
    distinctEmails (create_user ⟨[⟨1, "a@x.com", false, "A", "A", "p", 0, 0⟩], 2⟩
        ⟨"b@x.com", "B", "B", "p"⟩ 0 "t" .ok .ok).db.rows = true ∧
    distinctEmails (update_user ⟨[⟨1, "a@x.com", false, "A", "A", "p", 0, 0⟩], 2⟩
        1 ⟨none, some "Z", none⟩ 5 .ok).db.rows = true :=
  ⟨(email_uniqueness_preserved ⟨[⟨1, "a@x.com", false, "A", "A", "p", 0, 0⟩], 2⟩).1
      ⟨"b@x.com", "B", "B", "p"⟩ 0 "t" .ok .ok (by decide),
   (email_uniqueness_preserved ⟨[⟨1, "a@x.com", false, "A", "A", "p", 0, 0⟩], 2⟩).2
      1 ⟨none, some "Z", none⟩ 5 .ok (by decide) rfl⟩

/-- C2 (code bug): the claimed issue-then-redeem round trip does not exist
in the staged program.  `verify_email` always fails with the wrapped
`AttributeError` — the query at source line 227 references
`User.verify_email_token`, which the mapped model (`src/app/models/user.py`)
declares nowhere — and leaves the store untouched; concretely, issuing a
verification token for user 1 and immediately redeeming it fails with that
wrapped error instead of marking the user verified, and a token is never
durably stored in the first place (lines 186-187 write non-mapped
attributes). -/
theorem verify_email_never_redeems :
    (∀ db token now b, verify_email db token now b
      = ⟨.error (.wrapped .attributeError "users/verify_email"), db, []⟩) ∧
    (verify_email (request_email_verification
        ⟨[⟨1, "a@x.com", false, "A", "A", "p", 0, 0⟩], 2⟩ 1 "tok" 10 .ok).db
        "tok" 10 .ok).res
      = .error (.wrapped .attributeError "users/verify_email") :=
  ⟨fun _ _ _ _ => rfl, rfl⟩

/-- Trace check: scanning left to right, every publish on the `"users"`
topic must be preceded by some commit step. -/
def usersPublishAfterCommit : Bool → List Step → Bool
  | _, [] => true
  | _, Step.commit _ :: rest => usersPublishAfterCommit true rest
  | seenCommit, Step.publish topic _ _ :: rest =>
      ((topic != "users") || seenCommit) && usersPublishAfterCommit seenCommit rest

/-- C8: in every execution of each of the five mutating lifecycle operations
— create, update, changePassword, delete, verifyEmail — every publish of a
CREATE/UPDATE/DELETE event on the `"users"` topic occurs strictly after a
storage commit step in that operation's trace: no event is ever published
for a state change that has not yet been committed. -/
theorem commit_precedes_users_publish (db : DB) (payload : UserCreate)
    (upayload : UserUpdate) (user_id : Nat) (old_password new_password token : String)
    (now : Nat) (b1 b2 : BrokerBehavior) :
    usersPublishAfterCommit false (create_user db payload now token b1 b2).steps = true ∧
    usersPublishAfterCommit false (update_user db user_id upayload now b1).steps = true ∧
    usersPublishAfterCommit false
      (change_user_password db user_id old_password new_password now b1).steps = true ∧
    usersPublishAfterCommit false (delete_user db user_id b1).steps = true ∧
    usersPublishAfterCommit false (verify_email db token now b1).steps = true := by
  refine ⟨?_, ?_, ?_, ?_, ?_⟩
  · cases h1 : db.findByEmail payload.email with
    | some u => simp [create_user, h1, usersPublishAfterCommit]
    | none =>
        by_cases hcond : payload.email = "" ∨ ¬ payload.email.toList.contains '@'
        · simp only [create_user, h1]
          rw [if_pos hcond]
          simp [usersPublishAfterCommit]
        · simp only [create_user, h1]
          rw [if_neg hcond]
          cases b1 with
          | connectFails => simp [update_services, usersPublishAfterCommit]
          | publishFails => simp [update_services, usersPublishAfterCommit]
          | ok =>
              cases b2 with
              | connectFails =>
                  simp [update_services, send_verification_email, usersPublishAfterCommit]
              | publishFails =>
                  simp only [update_services, send_verification_email]
                  cases h2 : DB.get ⟨db.rows ++ [newUser db payload now], db.nextId + 1⟩
                      (newUser db payload now).id with
                  | none => simp [h2, usersPublishAfterCommit]
                  | some w => simp [h2, usersPublishAfterCommit]
              | ok =>
                  simp only [update_services, send_verification_email]
                  cases h2 : DB.get ⟨db.rows ++ [newUser db payload now], db.nextId + 1⟩
                      (newUser db payload now).id with
                  | none => simp [h2, usersPublishAfterCommit]
                  | some w => simp [h2, usersPublishAfterCommit]
  · cases hu : db.get user_id with
    | none => simp [update_user, hu, usersPublishAfterCommit]
    | some u =>
        cases b1 <;> simp [update_user, hu, update_services, usersPublishAfterCommit]
  · cases hu : db.get user_id with
    | none => simp [change_user_password, hu, usersPublishAfterCommit]
    | some u =>
        by_cases hp : u.hashed_password = old_password
        · cases b1 <;>
            simp [change_user_password, hu, hp, update_services, usersPublishAfterCommit]
        · simp [change_user_password, hu, hp, usersPublishAfterCommit]
  · cases hu : db.get user_id with
    | none => simp [delete_user, hu, usersPublishAfterCommit]
    | some u =>
        cases b1 <;> simp [delete_user, hu, update_services, usersPublishAfterCommit]
  · rfl

/-- C7: for every mutating operation, a notification failure — the broker
connection being unavailable or the publish call failing — is re-raised to
the caller as a wrapped `OrientatiException` (never silently swallowed),
while the already-committed mutation stays persisted: for update,
changePassword and delete the resulting store is exactly the store of the
same call with a healthy broker, for create the freshly inserted row is
still present (`hwf` says the store has not yet used the autoincrement id,
as storage guarantees), and verifyEmail — which in the staged program fails
before any commit or publish — likewise raises a wrapped error with the
store identical to the healthy-broker run. -/
theorem notification_failure_raised :
    (∀ db user_id payload now b u, db.get user_id = some u → b ≠ BrokerBehavior.ok →
      (∃ c, (update_user db user_id payload now b).res
          = .error (.wrapped c ("users/" ++ toString user_id))) ∧
      (update_user db user_id payload now b).db
        = (update_user db user_id payload now BrokerBehavior.ok).db) ∧
    (∀ db user_id oldp newp now b u, db.get user_id = some u →
        u.hashed_password = oldp → b ≠ BrokerBehavior.ok →
      (∃ c, (change_user_password db user_id oldp newp now b).res
          = .error (.wrapped c ("users/" ++ toString user_id ++ "/change_password"))) ∧
      (change_user_password db user_id oldp newp now b).db
        = (change_user_password db user_id oldp newp now BrokerBehavior.ok).db) ∧
    (∀ db user_id b u, db.get user_id = some u → b ≠ BrokerBehavior.ok →
      (∃ c, (delete_user db user_id b).res
          = .error (.wrapped c ("users/" ++ toString user_id ++ "/delete"))) ∧
      (delete_user db user_id b).db = (delete_user db user_id BrokerBehavior.ok).db ∧
      (delete_user db user_id b).db.get user_id = none) ∧
    (∀ db token now b, b ≠ BrokerBehavior.ok →
      (∃ c, (verify_email db token now b).res = .error (.wrapped c "users/verify_email")) ∧
      (verify_email db token now b).db = (verify_email db token now BrokerBehavior.ok).db) ∧
    (∀ db payload now token b1 b2, db.findByEmail payload.email = none →
        payload.email.toList.contains '@' → (∀ v ∈ db.rows, v.id ≠ db.nextId) →
        ¬ (b1 = BrokerBehavior.ok ∧ b2 = BrokerBehavior.ok) →
      (∃ c, (create_user db payload now token b1 b2).res
          = .error (.wrapped c "users/create")) ∧
      (∃ v, (create_user db payload now token b1 b2).db.get db.nextId = some v ∧
        v.email = payload.email)) := by
  refine ⟨?_, ?_, ?_, ?_, ?_⟩
  · intro db user_id payload now b u hu hb
    cases b with
    | ok => exact absurd rfl hb
    | connectFails =>
        exact ⟨⟨.connectionUnavailable, by simp [update_user, hu, update_services]⟩,
          by simp [update_user, hu, update_services]⟩
    | publishFails =>
        exact ⟨⟨.publishFailure, by simp [update_user, hu, update_services]⟩,
          by simp [update_user, hu, update_services]⟩
  · intro db user_id oldp newp now b u hu hp hb
    cases b with
    | ok => exact absurd rfl hb
    | connectFails =>
        exact ⟨⟨.connectionUnavailable,
            by simp [change_user_password, hu, hp, update_services]⟩,
          by simp [change_user_password, hu, hp, update_services]⟩
    | publishFails =>
        exact ⟨⟨.publishFailure, by simp [change_user_password, hu, hp, update_services]⟩,
          by simp [change_user_password, hu, hp, update_services]⟩
  · intro db user_id b u hu hb
    have hgone : (db.deleteById user_id).get user_id = none := DB.get_deleteById db user_id
    cases b with
    | ok => exact absurd rfl hb
    | connectFails =>
        refine ⟨⟨.connectionUnavailable, by simp [delete_user, hu, update_services]⟩,
          by simp [delete_user, hu, update_services], ?_⟩
        have hdb : (delete_user db user_id BrokerBehavior.connectFails).db
            = db.deleteById user_id := by simp [delete_user, hu, update_services]
        rw [hdb]
        exact hgone
    | publishFails =>
        refine ⟨⟨.publishFailure, by simp [delete_user, hu, update_services]⟩,
          by simp [delete_user, hu, update_services], ?_⟩
        have hdb : (delete_user db user_id BrokerBehavior.publishFails).db
            = db.deleteById user_id := by simp [delete_user, hu, update_services]
        rw [hdb]
        exact hgone
  · intro db token now b hb
    exact ⟨⟨.attributeError, rfl⟩, rfl⟩
  · intro db payload now token b1 b2 h1 hat hwf hb
    have hcond : ¬ (payload.email = "" ∨ ¬ payload.email.toList.contains '@') := by
      rcases List.exists_mem_of_ne_nil (l := payload.email.toList) (by
        intro hnil
        rw [hnil] at hat
        simp at hat) with ⟨c, hc⟩
      push_neg
      refine ⟨?_, hat⟩
      intro hemp
      rw [hemp] at hat
      simp at hat
    have hnew : (⟨db.rows ++ [newUser db payload now], db.nextId + 1⟩ : DB).get
        (newUser db payload now).id = some (newUser db payload now) :=
      DB.get_append_fresh (by intro v hv; exact hwf v hv)
    have hnewid : (newUser db payload now).id = db.nextId := rfl
    cases b1 with
    | connectFails =>
        refine ⟨⟨.connectionUnavailable, ?_⟩, ⟨newUser db payload now, ?_, rfl⟩⟩
        · simp only [create_user, h1]
          rw [if_neg hcond]
          simp [update_services]
        · simp only [create_user, h1]
          rw [if_neg hcond]
          simp only [update_services]
          rw [← hnewid]
          exact hnew
    | publishFails =>
        refine ⟨⟨.publishFailure, ?_⟩, ⟨newUser db payload now, ?_, rfl⟩⟩
        · simp only [create_user, h1]
          rw [if_neg hcond]
          simp [update_services]
        · simp only [create_user, h1]
          rw [if_neg hcond]
          simp only [update_services]
          rw [← hnewid]
          exact hnew
    | ok =>
        have hb2 : b2 ≠ BrokerBehavior.ok := by
          intro h
          exact hb ⟨rfl, h⟩
        cases b2 with
        | ok => exact absurd rfl hb2
        | connectFails =>
            refine ⟨⟨.connectionUnavailable, ?_⟩, ⟨newUser db payload now, ?_, rfl⟩⟩
            · simp only [create_user, h1]
              rw [if_neg hcond]
              simp [update_services, send_verification_email]
            · simp only [create_user, h1]
              rw [if_neg hcond]
              simp only [update_services, send_verification_email]
              rw [← hnewid]
              exact hnew
        | publishFails =>
            refine ⟨⟨.publishFailure, ?_⟩, ?_⟩
            · simp only [create_user, h1]
              rw [if_neg hcond]
              simp only [update_services, send_verification_email, hnew]
            · have hget := DB.get_updateById_self (f := fun w : User =>
                  if w.email_verified = false then w
                  else { w with email_verified := false, updated_at := now })
                (fun w => by by_cases h : w.email_verified = false <;> simp [h]) hnew
              refine ⟨newUser db payload now, ?_, rfl⟩
              simp only [create_user, h1]
              rw [if_neg hcond]
              simp only [update_services, send_verification_email, hnew]
              rw [← hnewid]
              exact hget

theorem notification_failure_raised_witness :
    (∃ c, (update_user ⟨[⟨1, "a@x.com", false, "A", "A", "p", 0, 0⟩], 2⟩
        1 ⟨none, some "Z", none⟩ 5 .connectFails).res
      = .error (.wrapped c ("users/" ++ toString 1))) ∧
    (update_user ⟨[⟨1, "a@x.com", false, "A", "A", "p", 0, 0⟩], 2⟩
        1 ⟨none, some "Z", none⟩ 5 .connectFails).db
      = (update_user ⟨[⟨1, "a@x.com", false, "A", "A", "p", 0, 0⟩], 2⟩
        1 ⟨none, some "Z", none⟩ 5 .ok).db :=
  notification_failure_raised.1 ⟨[⟨1, "a@x.com", false, "A", "A", "p", 0, 0⟩], 2⟩
    1 ⟨none, some "Z", none⟩ 5 .connectFails
    ⟨1, "a@x.com", false, "A", "A", "p", 0, 0⟩ (by decide) (by decide)
